import Mathlib

/-!
Shallow embedding of two Skia GPU components and proofs about them:

* `src/gpu/effects/GrCustomXfermode.cpp` — the advanced-blend-mode
  compositor (`IsSupportedMode`, `hw_blend_equation`,
  `can_use_hw_blend_equation`, `CustomXP`, `CustomXPFactory`,
  `GLCustomXP::GenKey`, and the coverage-tweak blend identity documented
  in `CustomXP::onGetOptimizations`).
* `src/gpu/ops/GrMSAAPathRenderer.cpp` — the MSAA path renderer
  (`ComputeWorstCasePointCount`, `createGeom` / `add_quad`,
  `MSAAPathOp::Make`, `onCombineIfPossible`, and the pass planning in
  `GrMSAAPathRenderer::internalDrawPath`).

Machine integers are modelled as `Int`/`Nat` with explicit `% 65536`
where the source casts to `uint16_t`; fallible operations return
`Option`.
-/

namespace Skia

/-! ## SkBlendMode

Modelled from the spec: the `SkBlendMode` enumeration lives in a public
header that is not under `src/`.  The spec (§4.5) describes a closed,
contiguous enumeration in which the coefficient-based (Porter-Duff)
modes come first, followed by the "advanced" modes; the fourteen
`GR_STATIC_ASSERT` lines in `hw_blend_equation` pin the relative layout
used below (overlay..multiply then hue/saturation/color/luminosity,
with `kLastCoeffMode = kScreen` and `kLastMode = kLuminosity`). -/
inductive SkBlendMode where
  | kClear | kSrc | kDst | kSrcOver | kDstOver | kSrcIn | kDstIn
  | kSrcOut | kDstOut | kSrcATop | kDstATop | kXor | kPlus | kModulate
  | kScreen
  | kOverlay | kDarken | kLighten | kColorDodge | kColorBurn
  | kHardLight | kSoftLight | kDifference | kExclusion | kMultiply
  | kHue | kSaturation | kColor | kLuminosity
  deriving DecidableEq

/-- The integer value of the C++ enumerator (`(int)mode`). -/
def SkBlendMode.toInt : SkBlendMode → Int
  | .kClear => 0 | .kSrc => 1 | .kDst => 2 | .kSrcOver => 3 | .kDstOver => 4
  | .kSrcIn => 5 | .kDstIn => 6 | .kSrcOut => 7 | .kDstOut => 8
  | .kSrcATop => 9 | .kDstATop => 10 | .kXor => 11 | .kPlus => 12
  | .kModulate => 13 | .kScreen => 14
  | .kOverlay => 15 | .kDarken => 16 | .kLighten => 17 | .kColorDodge => 18
  | .kColorBurn => 19 | .kHardLight => 20 | .kSoftLight => 21
  | .kDifference => 22 | .kExclusion => 23 | .kMultiply => 24
  | .kHue => 25 | .kSaturation => 26 | .kColor => 27 | .kLuminosity => 28

/-- `(int)SkBlendMode::kLastCoeffMode` (= `kScreen`): the last
coefficient-based (Porter-Duff) blend mode. -/
def kLastCoeffMode : Int := SkBlendMode.kScreen.toInt

/-- `(int)SkBlendMode::kLastMode` (= `kLuminosity`): the last mode in
the enumeration. -/
def kLastMode : Int := SkBlendMode.kLuminosity.toInt

/-- A blend mode is "separable (Porter-Duff-coefficient)" when it lies
at or below `kLastCoeffMode` in the enumeration. -/
def SkBlendMode.isCoeffMode (mode : SkBlendMode) : Bool :=
  mode.toInt ≤ kLastCoeffMode

/-- `GrCustomXfermode::IsSupportedMode` (GrCustomXfermode.cpp:25-28):
`(int)mode > (int)SkBlendMode::kLastCoeffMode && (int)mode <=
(int)SkBlendMode::kLastMode`. -/
def IsSupportedMode (mode : SkBlendMode) : Bool :=
  kLastCoeffMode < mode.toInt && mode.toInt ≤ kLastMode

/-! ## GrBlendEquation

Advanced `GrBlendEquation` values are modelled by their C++ integer
enumerator values; the basic equations `kAdd`, `kSubtract`,
`kReverseSubtract` occupy 0..2 and `kOverlay_GrBlendEquation` (= 4,
just after `kScreen_GrBlendEquation` = 3) starts the advanced range
used by `hw_blend_equation`'s `GR_STATIC_ASSERT` lines. -/
def kOverlay_GrBlendEquation : Int := 4

/-- `hw_blend_equation` (GrCustomXfermode.cpp:34-53): the enum offset
`kOffset = kOverlay_GrBlendEquation - (int)SkBlendMode::kOverlay`
applied to the mode's enumerator value. -/
def hw_blend_equation (mode : SkBlendMode) : Int :=
  mode.toInt + (kOverlay_GrBlendEquation - SkBlendMode.kOverlay.toInt)

/-- `GrCaps`, restricted to the two queries used by
`can_use_hw_blend_equation`.  Modelled from the spec: `GrCaps.h` is not
under `src/`.  Per spec §4.5 the hardware path additionally requires
that "the backend does not refuse that specific equation";
`canUseAdvancedBlendEquation` is that per-equation refusal
("blacklist") query — it returns `true` when the backend refuses the
equation, which is why `can_use_hw_blend_equation` bails out when it
holds. -/
structure GrCaps where
  advancedBlendEquationSupport : Bool
  canUseAdvancedBlendEquation : Int → Bool
  advancedCoherentBlendEquationSupport : Bool

/-- The fields of `GrPipelineAnalysis` read by
`can_use_hw_blend_equation` (`fUsesPLSDstRead`, and
`fCoveragePOI.isFourChannelOutput()` flattened to a Bool). -/
structure GrPipelineAnalysis where
  fUsesPLSDstRead : Bool
  coverageIsFourChannelOutput : Bool

/-- `can_use_hw_blend_equation` (GrCustomXfermode.cpp:55-71). -/
def can_use_hw_blend_equation (equation : Int) (analysis : GrPipelineAnalysis)
    (caps : GrCaps) : Bool :=
  if !caps.advancedBlendEquationSupport then false
  else if analysis.fUsesPLSDstRead then false
  else if analysis.coverageIsFourChannelOutput then false
  else if caps.canUseAdvancedBlendEquation equation then false
  else true

/-- `CustomXP` (GrCustomXfermode.cpp:77-122): the blend-mode xfer
processor.  `willReadDstColor` records the flag the dst-read
constructor passes to the `GrXferProcessor` base class
(`INHERITED(dstTexture, true, hasMixedSamples)`); the hardware-equation
constructor leaves it `false`. -/
structure CustomXP where
  fMode : SkBlendMode
  fHWBlendEquation : Int
  willReadDstColor : Bool
  deriving DecidableEq

/-- The hardware-equation constructor `CustomXP(mode, hwBlendEquation)`
(GrCustomXfermode.cpp:79-83): no dst read. -/
def CustomXP.mkHW (mode : SkBlendMode) (hwBlendEquation : Int) : CustomXP :=
  { fMode := mode, fHWBlendEquation := hwBlendEquation, willReadDstColor := false }

/-- The dst-read constructor `CustomXP(dstTexture, hasMixedSamples,
mode)` (GrCustomXfermode.cpp:85-90): `fHWBlendEquation` is set to
`static_cast<GrBlendEquation>(-1)` and the base class is told to read
the destination color. -/
def CustomXP.mkDstRead (mode : SkBlendMode) : CustomXP :=
  { fMode := mode, fHWBlendEquation := -1, willReadDstColor := true }

/-- `CustomXP::hasHWBlendEquation` (GrCustomXfermode.cpp:97):
`-1 != static_cast<int>(fHWBlendEquation)`. -/
def CustomXP.hasHWBlendEquation (xp : CustomXP) : Bool :=
  xp.fHWBlendEquation ≠ -1

/-- `CustomXP::onIsEqual` (GrCustomXfermode.cpp:198-201). -/
def CustomXP.onIsEqual (xp other : CustomXP) : Bool :=
  xp.fMode = other.fMode && xp.fHWBlendEquation = other.fHWBlendEquation

/-- The fields of `GrShaderCaps` read by `GLCustomXP::GenKey`. -/
structure GrShaderCaps where
  advBlendEqInteraction : Nat
  mustEnableSpecificAdvBlendEqs : Bool

/-- `GLCustomXP::GenKey` (GrCustomXfermode.cpp:131-144): the 32-bit
shader key added for a `CustomXP`. -/
def GLCustomXP.GenKey (xp : CustomXP) (caps : GrShaderCaps) : Nat :=
  let key : Nat := 0
  let key := if xp.hasHWBlendEquation then key ||| caps.advBlendEqInteraction else key
  let key := if !xp.hasHWBlendEquation || caps.mustEnableSpecificAdvBlendEqs then
               key ||| (xp.fMode.toInt.toNat <<< 3)
             else key
  key

/-- `CustomXPFactory::onCreateXferProcessor`
(GrCustomXfermode.cpp:364-373), with the factory's `fHWBlendEquation`
already expanded to `hw_blend_equation fMode` per the factory
constructor (GrCustomXfermode.cpp:357-362). -/
def CustomXPFactory.onCreateXferProcessor (fMode : SkBlendMode) (caps : GrCaps)
    (analysis : GrPipelineAnalysis) : CustomXP :=
  if can_use_hw_blend_equation (hw_blend_equation fMode) analysis caps then
    CustomXP.mkHW fMode (hw_blend_equation fMode)
  else
    CustomXP.mkDstRead fMode

/-- `CustomXPFactory::onWillReadDstColor` (GrCustomXfermode.cpp:375-378). -/
def CustomXPFactory.onWillReadDstColor (fMode : SkBlendMode) (caps : GrCaps)
    (analysis : GrPipelineAnalysis) : Bool :=
  !can_use_hw_blend_equation (hw_blend_equation fMode) analysis caps

/-! ## The coverage-tweak blend identity

`CustomXP::onGetOptimizations` (GrCustomXfermode.cpp:203-313) justifies
`kCanTweakAlphaForCoverage_OptFlag` by the identity proved below.  Its
comment defines, for an arbitrary mode-specific operator `B` on
un-premultiplied colors:

    blend(Sca, Dca, Sa, Da) = { Dca                                    if Sa = 0
                              , Sca                                    if Da = 0
                              , B(Sca/Sa, Dca/Da)*Sa*Da
                                  + Sca*(1-Da) + Dca*(1-Sa)            otherwise }

The source manipulates real-valued colors; the embedding uses exact
rationals so that the definition stays executable. -/
def blend (B : ℚ → ℚ → ℚ) (Sca Dca Sa Da : ℚ) : ℚ :=
  if Sa = 0 then Dca
  else if Da = 0 then Sca
  else B (Sca / Sa) (Dca / Da) * Sa * Da + Sca * (1 - Da) + Dca * (1 - Sa)

/-! ## GrMSAAPathRenderer: paths and geometry

Both `ComputeWorstCasePointCount` and `createGeom` walk the same
`SkPath::Iter(path, true)` verb stream, so a path is embedded as the
list of verbs that iterator produces (each verb carrying the `pts`
entries the source reads).  Positions and conic weights are opaque type
parameters `P` and `W`: none of the verified properties depend on
coordinate arithmetic. -/
inductive Verb (P W : Type) where
  | move (p0 : P)
  | line (p0 p1 : P)
  | quad (p0 p1 p2 : P)
  | conic (p0 p1 p2 : P) (w : W)
  | cubic (p0 p1 p2 p3 : P)
  | close

/-- Modelled from the spec: `SkAutoConicToQuads::computeQuads`
(SkGeometry) and `GrPathUtils::convertCubicToQuads` are not under
`src/`.  Per spec §4.1 each converts one conic/cubic into a finite
sequence of quadratic segments (3 control points per segment) within
the fixed tolerance, and both call sites in
`ComputeWorstCasePointCount` and `createGeom` invoke them with the same
arguments and tolerance, so the embedding abstracts each converter as a
function from the verb's data to the list of quadratic segments. -/
structure Converters (P W : Type) where
  conicToQuads : P → P → P → W → List (P × P × P)
  cubicToQuads : P → P → P → P → List (P × P × P)

/-- Loop body of `MSAAPathOp::ComputeWorstCasePointCount`
(GrMSAAPathRenderer.cpp:273-323), carried through the verb list with
the `subpaths` / `first` / count accumulators of the source.  The
`kConic_Verb` case has no `break` and falls through into the
`kQuad_Verb` case, so one conic flattened into `n` quadratics adds
`n + 1` line points and `3n + 3` quad points.  For cubics the source
reads the flattened point-array size (`count = 3 * number of
segments`) and adds `count / 3` line points and `count` quad points. -/
def ComputeWorstCasePointCount.go {P W : Type} (cv : Converters P W) :
    List (Verb P W) → Int → Bool → Int → Int → Int × Int × Int
  | [], subpaths, _, linePointCount, quadPointCount =>
      (subpaths, linePointCount, quadPointCount)
  | verb :: rest, subpaths, first, linePointCount, quadPointCount =>
      match verb with
      | .line _ _ =>
          go cv rest subpaths false (linePointCount + 1) quadPointCount
      | .conic p0 p1 p2 w =>
          let quadPts : Int := (cv.conicToQuads p0 p1 p2 w).length
          -- fallthrough into the kQuad_Verb case (no break in the source)
          go cv rest subpaths false (linePointCount + quadPts + 1)
            (quadPointCount + 3 * quadPts + 3)
      | .quad _ _ _ =>
          go cv rest subpaths false (linePointCount + 1) (quadPointCount + 3)
      | .cubic p0 p1 p2 p3 =>
          let count : Int := 3 * (cv.cubicToQuads p0 p1 p2 p3).length
          go cv rest subpaths false (linePointCount + count / 3) (quadPointCount + count)
      | .move _ =>
          go cv rest (if first then subpaths else subpaths + 1) false
            (linePointCount + 1) quadPointCount
      | .close =>
          go cv rest subpaths false linePointCount quadPointCount

/-- `MSAAPathOp::ComputeWorstCasePointCount`
(GrMSAAPathRenderer.cpp:273-323); returns
`(subpaths, linePointCount, quadPointCount)`. -/
def ComputeWorstCasePointCount {P W : Type} (cv : Converters P W)
    (path : List (Verb P W)) : Int × Int × Int :=
  ComputeWorstCasePointCount.go cv path 1 true 0 0

/-- An entry of the line vertex stream (`MSAALineVertices::Vertex`,
GrMSAAPathRenderer.cpp:50-54): position and `SkColor`. -/
structure LineVertex (P : Type) where
  fPosition : P
  fColor : Nat
  deriving DecidableEq

/-- An entry of the quad vertex stream (`MSAAQuadVertices::Vertex`,
GrMSAAPathRenderer.cpp:64-69): position, Loop-Blinn UV, and color. -/
structure QuadVertex (P : Type) where
  fPosition : P
  fUV : ℚ × ℚ
  fColor : Nat
  deriving DecidableEq

/-- The buffer state written by `createGeom`: the `MSAALineVertices`
and `MSAAQuadVertices` cursors of GrMSAAPathRenderer.cpp:50-77, with
each pointer-advancing write embedded as a list append.  Indices are
`uint16_t` in the source and are therefore reduced `% 65536` at each
cast. -/
structure GeomState (P : Type) where
  lineVerts : List (LineVertex P)
  lineIdx : List Int
  quadVerts : List (QuadVertex P)
  quadIdx : List Int

/-- The empty buffers handed to `createGeom` by `onPrepareDraws`. -/
def GeomState.empty (P : Type) : GeomState P := ⟨[], [], [], []⟩

/-- `append_contour_edge_indices` (GrMSAAPathRenderer.cpp:79-85). -/
def append_contour_edge_indices (fanCenterIdx edgeV0Idx : Int)
    (lineIdx : List Int) : List Int :=
  lineIdx ++ [fanCenterIdx, edgeV0Idx, edgeV0Idx + 1]

/-- `add_quad` (GrMSAAPathRenderer.cpp:87-110): appends the segment's
endpoint to the line stream (with fan indices when indexed) and the
three Loop-Blinn vertices `(0,0)`, `(0.5,0)`, `(1,1)` to the quad
stream (with a consecutive index triple when indexed). -/
def add_quad {P : Type} (st : GeomState P) (p0 p1 p2 : P) (color : Nat)
    (indexed : Bool) (subpathLineIdxStart : Int) : GeomState P :=
  let prevIdx : Int := ((st.lineVerts.length : Int) - 1) % 65536
  let lineIdx :=
    if indexed && prevIdx > subpathLineIdxStart then
      append_contour_edge_indices subpathLineIdxStart prevIdx st.lineIdx
    else st.lineIdx
  let lineVerts := st.lineVerts ++ [⟨p2, color⟩]
  let quadVerts := st.quadVerts ++
    [⟨p0, (0, 0), color⟩, ⟨p1, (1/2, 0), color⟩, ⟨p2, (1, 1), color⟩]
  let quadIdx :=
    if indexed then
      let offset : Int := (quadVerts.length : Int) % 65536 - 3
      st.quadIdx ++ [offset, offset + 1, offset + 2]
    else st.quadIdx
  ⟨lineVerts, lineIdx, quadVerts, quadIdx⟩

/-- Loop body of `MSAAPathOp::createGeom`
(GrMSAAPathRenderer.cpp:479-547), carried through the verb list with
the `subpathIdxStart` / `first` state of the source. -/
def createGeom.go {P W : Type} (cv : Converters P W) (color : Nat) (indexed : Bool) :
    List (Verb P W) → GeomState P → Int → Bool → GeomState P
  | [], st, _, _ => st
  | verb :: rest, st, subpathIdxStart, first =>
      match verb with
      | .move p0 =>
          let subpathIdxStart :=
            if !first then (st.lineVerts.length : Int) % 65536 else subpathIdxStart
          let st := { st with lineVerts := st.lineVerts ++ [⟨p0, color⟩] }
          go cv color indexed rest st subpathIdxStart false
      | .line _ p1 =>
          let st :=
            if indexed then
              let prevIdx : Int := ((st.lineVerts.length : Int) - 1) % 65536
              if prevIdx > subpathIdxStart then
                { st with lineIdx :=
                    append_contour_edge_indices subpathIdxStart prevIdx st.lineIdx }
              else st
            else st
          let st := { st with lineVerts := st.lineVerts ++ [⟨p1, color⟩] }
          go cv color indexed rest st subpathIdxStart false
      | .conic p0 p1 p2 w =>
          let st := (cv.conicToQuads p0 p1 p2 w).foldl
            (fun s q => add_quad s q.1 q.2.1 q.2.2 color indexed subpathIdxStart) st
          go cv color indexed rest st subpathIdxStart false
      | .quad p0 p1 p2 =>
          let st := add_quad st p0 p1 p2 color indexed subpathIdxStart
          go cv color indexed rest st subpathIdxStart false
      | .cubic p0 p1 p2 p3 =>
          let st := (cv.cubicToQuads p0 p1 p2 p3).foldl
            (fun s q => add_quad s q.1 q.2.1 q.2.2 color indexed subpathIdxStart) st
          go cv color indexed rest st subpathIdxStart false
      | .close =>
          go cv color indexed rest st subpathIdxStart false

/-- `MSAAPathOp::createGeom` (GrMSAAPathRenderer.cpp:479-547) for one
path, appending to the buffers in `st`. -/
def createGeom {P W : Type} (cv : Converters P W) (st : GeomState P)
    (path : List (Verb P W)) (color : Nat) (indexed : Bool) : GeomState P :=
  createGeom.go cv color indexed path st ((st.lineVerts.length : Int) % 65536) true

/-! ## MSAAPathOp: creation and merging -/

/-- `MSAAPathOp::kMaxIndexedVertexCnt` (GrMSAAPathRenderer.cpp:551):
`SK_MaxU16 / 3 = 65535 / 3 = 21845`. -/
def kMaxIndexedVertexCnt : Int := 65535 / 3

/-- `MSAAPathOp::PathInfo` (GrMSAAPathRenderer.cpp:552-555). -/
structure PathInfo (P W : Type) where
  fColor : Nat
  fPath : List (Verb P W)

/-- The `MSAAPathOp` batch state (GrMSAAPathRenderer.cpp:217-565).
`R` is the device-bounds rectangle type, `M` the view-matrix type, and
`Pl` the pipeline-state type; the pipeline is attached to the op by the
external `addDrawOp` machinery before `onCombineIfPossible` can run, so
it appears here as a field. -/
structure MSAAPathOp (P W M R Pl : Type) where
  fPaths : List (PathInfo P W)
  fViewMatrix : M
  bounds : R
  pipeline : Pl
  fMaxLineVertices : Int
  fMaxQuadVertices : Int
  fIsIndexed : Bool

/-- `MSAAPathOp::Make` (GrMSAAPathRenderer.cpp:220-234): computes the
worst-case counts, decides indexed emission (`contourCount > 1`), and
rejects (returns null) when an indexed batch would exceed
`kMaxIndexedVertexCnt`. -/
def MSAAPathOp.Make {P W M R Pl : Type} (cv : Converters P W) (color : Nat)
    (path : List (Verb P W)) (viewMatrix : M) (devBounds : R) (pipeline : Pl) :
    Option (MSAAPathOp P W M R Pl) :=
  let wc := ComputeWorstCasePointCount cv path
  let contourCount := wc.1
  let maxLineVertices := wc.2.1
  let maxQuadVertices := wc.2.2
  let isIndexed := contourCount > 1
  if isIndexed &&
      (maxLineVertices > kMaxIndexedVertexCnt || maxQuadVertices > kMaxIndexedVertexCnt) then
    none
  else
    some { fPaths := [⟨color, path⟩], fViewMatrix := viewMatrix, bounds := devBounds,
           pipeline := pipeline, fMaxLineVertices := maxLineVertices,
           fMaxQuadVertices := maxQuadVertices, fIsIndexed := isIndexed }

/-- `MSAAPathOp::onCombineIfPossible` (GrMSAAPathRenderer.cpp:454-477).
`GrPipeline::CanCombine` and `GrOp::joinBounds` are external
(`GrPipeline.h` / `GrOp.h` are not under `src/`), so they enter as the
function parameters `CanCombine` and `joinBounds`;
`SkMatrix::cheapEqualTo` is bit-for-bit equality, embedded as decidable
equality on `M`.  The source mutates `this` and returns `bool`; the
embedding returns the updated absorbing op, or `none` where the source
returns `false` (leaving the op unchanged). -/
def MSAAPathOp.onCombineIfPossible {P W M R Pl : Type} [DecidableEq M]
    (CanCombine : Pl → R → Pl → R → Bool) (joinBounds : R → R → R)
    (thisOp thatOp : MSAAPathOp P W M R Pl) : Option (MSAAPathOp P W M R Pl) :=
  if !CanCombine thisOp.pipeline thisOp.bounds thatOp.pipeline thatOp.bounds then
    none
  else if !(thisOp.fViewMatrix = thatOp.fViewMatrix : Bool) then
    none
  else if (thisOp.fMaxLineVertices + thatOp.fMaxLineVertices > kMaxIndexedVertexCnt) ||
          (thisOp.fMaxQuadVertices + thatOp.fMaxQuadVertices > kMaxIndexedVertexCnt) then
    none
  else
    some { fPaths := thisOp.fPaths ++ thatOp.fPaths,
           fViewMatrix := thisOp.fViewMatrix,
           bounds := joinBounds thisOp.bounds thatOp.bounds,
           pipeline := thisOp.pipeline,
           fMaxLineVertices := thisOp.fMaxLineVertices + thatOp.fMaxLineVertices,
           fMaxQuadVertices := thisOp.fMaxQuadVertices + thatOp.fMaxQuadVertices,
           fIsIndexed := true }

/-- The effect of a failed `onCombineIfPossible` on the absorbing op:
the source returns `false` before any mutation, so the op is unchanged.
`attemptCombine` is the absorbing op after one merge attempt. -/
def MSAAPathOp.attemptCombine {P W M R Pl : Type} [DecidableEq M]
    (CanCombine : Pl → R → Pl → R → Bool) (joinBounds : R → R → R)
    (thisOp thatOp : MSAAPathOp P W M R Pl) : MSAAPathOp P W M R Pl :=
  (MSAAPathOp.onCombineIfPossible CanCombine joinBounds thisOp thatOp).getD thisOp

/-! ## GrMSAAPathRenderer: pass planning -/

/-- The facts about a `GrShape` that `internalDrawPath` reads:
`inverseFilled()` and `knownToBeConvex()` queries plus the
`SkPath::FillType` of the extracted path (`kWinding = 0`, `kEvenOdd =
1`, `kInverseWinding = 2`, `kInverseEvenOdd = 3`; the C++ fill-type
value is an integer, and the switch in the source has a default branch
for any other value). -/
structure GrShape where
  inverseFilled : Bool
  knownToBeConvex : Bool
  fillType : Int

/-- `SkPath::kWinding_FillType`. -/
def kWinding_FillType : Int := 0

/-- `SkPath::kEvenOdd_FillType`. -/
def kEvenOdd_FillType : Int := 1

/-- `SkPath::kInverseWinding_FillType`. -/
def kInverseWinding_FillType : Int := 2

/-- `SkPath::kInverseEvenOdd_FillType`. -/
def kInverseEvenOdd_FillType : Int := 3

/-- `single_pass_shape` (GrMSAAPathRenderer.cpp:35-40). -/
def single_pass_shape (shape : GrShape) : Bool :=
  if !shape.inverseFilled then shape.knownToBeConvex else false

/-- The stencil-settings constants of `GrPathStencilSettings.h` named
by `internalDrawPath`, plus the caller's `userStencilSettings`.  Their
contents are external; the plan only records which one each pass
uses. -/
inductive StencilSetting where
  | userStencil
  | directToStencil
  | eoStencilPass
  | eoColorPass
  | invEOColorPass
  | windStencilSeparateWithWrap
  | windColorPass
  | invWindColorPass
  deriving DecidableEq

/-- The pass plan built by `internalDrawPath`
(GrMSAAPathRenderer.cpp:579-637): the `passes` array together with the
`reverse` and `lastPassIsBounds` flags. -/
structure PassPlan where
  passes : List StencilSetting
  reverse : Bool
  lastPassIsBounds : Bool
  deriving DecidableEq

/-- The pass-planning section of `GrMSAAPathRenderer::internalDrawPath`
(GrMSAAPathRenderer.cpp:586-637).  `none` embeds the `default:` branch
of the fill-type switch (`SkDEBUGFAIL("Unknown path fFill!"); return
false;`): an internal-consistency failure for an unrecognized
fill-rule value.  The `kInverse*` cases fall through into their
non-inverse siblings after setting `reverse`. -/
def planPasses (shape : GrShape) (stencilOnly : Bool) : Option PassPlan :=
  if single_pass_shape shape then
    some { passes := [if stencilOnly then .directToStencil else .userStencil],
           reverse := false, lastPassIsBounds := false }
  else if shape.fillType = kInverseEvenOdd_FillType ∨ shape.fillType = kEvenOdd_FillType then
    let reverse := shape.fillType = kInverseEvenOdd_FillType
    if stencilOnly then
      some { passes := [.eoStencilPass], reverse := reverse, lastPassIsBounds := false }
    else
      some { passes := [.eoStencilPass,
                        if reverse then .invEOColorPass else .eoColorPass],
             reverse := reverse, lastPassIsBounds := true }
  else if shape.fillType = kInverseWinding_FillType ∨ shape.fillType = kWinding_FillType then
    let reverse := shape.fillType = kInverseWinding_FillType
    if stencilOnly then
      some { passes := [.windStencilSeparateWithWrap], reverse := reverse,
             lastPassIsBounds := false }
    else
      some { passes := [.windStencilSeparateWithWrap,
                        if reverse then .invWindColorPass else .windColorPass],
             reverse := reverse, lastPassIsBounds := true }
  else
    none

/-- One submitted pass of `internalDrawPath`
(GrMSAAPathRenderer.cpp:645-685): either the non-AA rect op of the
"cover" step (with the bounds, view matrix and local matrix handed to
`GrRectOpFactory::MakeNonAAFill`) or the `MSAAPathOp` draw (with
`setDisableColorXPFactory` recorded when `passCount > 1`). -/
inductive PassDraw (P W M R Pl : Type) where
  | rectDraw (bounds : R) (viewM : M) (localMatrix : M) (stencil : StencilSetting)
  | pathDraw (op : MSAAPathOp P W M R Pl) (stencil : StencilSetting)
      (disableColorXP : Bool)

/-- The body of the pass loop of `internalDrawPath`
(GrMSAAPathRenderer.cpp:645-685) for pass index `p`.  `SkMatrix` is
external, so the view matrix enters through its embedding-relevant
facts: `vmHasPerspective` (`viewMatrix.hasPerspective()`), `vmInverse`
(`viewMatrix.invert(...)`, `none` when not invertible), the identity
`matrixI` (`SkMatrix::I()`), and `mapRect` (`SkMatrix::mapRect`,
only reached on a non-perspective matrix). -/
def internalDrawPath.buildPass {P W M R Pl : Type} (cv : Converters P W)
    (matrixI : M) (mapRect : M → R → R) (vmHasPerspective : Bool) (vmInverse : Option M)
    (paintColor : Nat) (viewMatrix : M) (path : List (Verb P W))
    (devBounds pathBounds : R) (pipeline : Pl) (plan : PassPlan)
    (p : Nat) (stencil : StencilSetting) : Option (PassDraw P W M R Pl) :=
  let passCount := plan.passes.length
  if plan.lastPassIsBounds && (p = passCount - 1 : Bool) then
    if plan.reverse then
      match (if !vmHasPerspective then vmInverse else none) with
      | some vmi =>
          -- !viewMatrix.hasPerspective() && viewMatrix.invert(&vmi)
          some (.rectDraw (mapRect vmi devBounds)
            (if plan.reverse && vmHasPerspective then matrixI else viewMatrix)
            matrixI stencil)
      | none =>
          match vmInverse with
          | none => none  -- !viewMatrix.invert(&localMatrix) → return false
          | some localMatrix =>
              some (.rectDraw devBounds
                (if plan.reverse && vmHasPerspective then matrixI else viewMatrix)
                localMatrix stencil)
    else
      some (.rectDraw pathBounds
        (if plan.reverse && vmHasPerspective then matrixI else viewMatrix)
        matrixI stencil)
  else
    match MSAAPathOp.Make cv paintColor path viewMatrix devBounds pipeline with
    | none => none  -- MSAAPathOp::Make returned null → return false
    | some op => some (.pathDraw op stencil (passCount > 1 : Bool))

/-- Folds `internalDrawPath.buildPass` over the planned passes in
order, failing if any pass fails. -/
def internalDrawPath.buildPasses {P W M R Pl : Type}
    (build : Nat → StencilSetting → Option (PassDraw P W M R Pl)) :
    Nat → List StencilSetting → Option (List (PassDraw P W M R Pl))
  | _, [] => some []
  | p, s :: rest =>
      match build p s, internalDrawPath.buildPasses build (p + 1) rest with
      | some d, some ds => some (d :: ds)
      | _, _ => none

/-- `GrMSAAPathRenderer::internalDrawPath`
(GrMSAAPathRenderer.cpp:567-687), reduced to the data it submits:
the planned passes and, for each, the draw it adds.  Returns `none`
where the source returns `false`. -/
def internalDrawPath {P W M R Pl : Type} (cv : Converters P W)
    (matrixI : M) (mapRect : M → R → R) (vmHasPerspective : Bool) (vmInverse : Option M)
    (paintColor : Nat) (viewMatrix : M) (shape : GrShape) (path : List (Verb P W))
    (devBounds pathBounds : R) (pipeline : Pl) (stencilOnly : Bool) :
    Option (List (PassDraw P W M R Pl)) :=
  match planPasses shape stencilOnly with
  | none => none
  | some plan =>
      internalDrawPath.buildPasses
        (internalDrawPath.buildPass cv matrixI mapRect vmHasPerspective vmInverse
          paintColor viewMatrix path devBounds pathBounds pipeline plan)
        0 plan.passes

/-! ## Counting the vertices written by createGeom -/

/-- Number of line vertices `createGeom` writes for a verb list: one
per move/line, one per flattened quadratic segment (via `add_quad`). -/
def actLineCount {P W : Type} (cv : Converters P W) : List (Verb P W) → Nat
  | [] => 0
  | .move _ :: rest => 1 + actLineCount cv rest
  | .line _ _ :: rest => 1 + actLineCount cv rest
  | .quad _ _ _ :: rest => 1 + actLineCount cv rest
  | .conic p0 p1 p2 w :: rest =>
      (cv.conicToQuads p0 p1 p2 w).length + actLineCount cv rest
  | .cubic p0 p1 p2 p3 :: rest =>
      (cv.cubicToQuads p0 p1 p2 p3).length + actLineCount cv rest
  | .close :: rest => actLineCount cv rest

/-- Number of quad vertices `createGeom` writes for a verb list: three
per flattened quadratic segment (via `add_quad`). -/
def actQuadCount {P W : Type} (cv : Converters P W) : List (Verb P W) → Nat
  | [] => 0
  | .move _ :: rest => actQuadCount cv rest
  | .line _ _ :: rest => actQuadCount cv rest
  | .quad _ _ _ :: rest => 3 + actQuadCount cv rest
  | .conic p0 p1 p2 w :: rest =>
      3 * (cv.conicToQuads p0 p1 p2 w).length + actQuadCount cv rest
  | .cubic p0 p1 p2 p3 :: rest =>
      3 * (cv.cubicToQuads p0 p1 p2 p3).length + actQuadCount cv rest
  | .close :: rest => actQuadCount cv rest

lemma add_quad_lineVerts_length {P : Type} (st : GeomState P) (p0 p1 p2 : P)
    (color : Nat) (indexed : Bool) (sp : Int) :
    (add_quad st p0 p1 p2 color indexed sp).lineVerts.length
      = st.lineVerts.length + 1 := by
  simp [add_quad]

lemma add_quad_quadVerts_length {P : Type} (st : GeomState P) (p0 p1 p2 : P)
    (color : Nat) (indexed : Bool) (sp : Int) :
    (add_quad st p0 p1 p2 color indexed sp).quadVerts.length
      = st.quadVerts.length + 3 := by
  simp [add_quad]

lemma foldl_add_quad_lineVerts_length {P : Type} (color : Nat) (indexed : Bool)
    (sp : Int) :
    ∀ (l : List (P × P × P)) (st : GeomState P),
    (l.foldl (fun s q => add_quad s q.1 q.2.1 q.2.2 color indexed sp) st).lineVerts.length
      = st.lineVerts.length + l.length
  | [], st => by simp
  | q :: rest, st => by
      simp only [List.foldl_cons, List.length_cons,
        foldl_add_quad_lineVerts_length color indexed sp rest,
        add_quad_lineVerts_length]
      omega

lemma foldl_add_quad_quadVerts_length {P : Type} (color : Nat) (indexed : Bool)
    (sp : Int) :
    ∀ (l : List (P × P × P)) (st : GeomState P),
    (l.foldl (fun s q => add_quad s q.1 q.2.1 q.2.2 color indexed sp) st).quadVerts.length
      = st.quadVerts.length + 3 * l.length
  | [], st => by simp
  | q :: rest, st => by
      simp only [List.foldl_cons, List.length_cons,
        foldl_add_quad_quadVerts_length color indexed sp rest,
        add_quad_quadVerts_length]
      omega

lemma createGeom.go_lineVerts_length {P W : Type} (cv : Converters P W)
    (color : Nat) (indexed : Bool) :
    ∀ (verbs : List (Verb P W)) (st : GeomState P) (sp : Int) (first : Bool),
    (createGeom.go cv color indexed verbs st sp first).lineVerts.length
      = st.lineVerts.length + actLineCount cv verbs := by
  intro verbs
  induction verbs with
  | nil => intro st sp first; simp [createGeom.go, actLineCount]
  | cons v rest ih =>
      intro st sp first
      cases v with
      | move p0 =>
          simp only [createGeom.go, actLineCount, ih]
          simp; omega
      | line p0 p1 =>
          simp only [createGeom.go, actLineCount, ih]
          split <;> (try split) <;> simp <;> omega
      | quad p0 p1 p2 =>
          simp only [createGeom.go, actLineCount, ih, add_quad_lineVerts_length]
          omega
      | conic p0 p1 p2 w =>
          simp only [createGeom.go, actLineCount, ih,
            foldl_add_quad_lineVerts_length]
          omega
      | cubic p0 p1 p2 p3 =>
          simp only [createGeom.go, actLineCount, ih,
            foldl_add_quad_lineVerts_length]
          omega
      | close => simp only [createGeom.go, actLineCount, ih]

lemma createGeom.go_quadVerts_length {P W : Type} (cv : Converters P W)
    (color : Nat) (indexed : Bool) :
    ∀ (verbs : List (Verb P W)) (st : GeomState P) (sp : Int) (first : Bool),
    (createGeom.go cv color indexed verbs st sp first).quadVerts.length
      = st.quadVerts.length + actQuadCount cv verbs := by
  intro verbs
  induction verbs with
  | nil => intro st sp first; simp [createGeom.go, actQuadCount]
  | cons v rest ih =>
      intro st sp first
      cases v with
      | move p0 =>
          simp only [createGeom.go, actQuadCount, ih]
      | line p0 p1 =>
          simp only [createGeom.go, actQuadCount, ih]
          split <;> (try split) <;> simp
      | quad p0 p1 p2 =>
          simp only [createGeom.go, actQuadCount, ih, add_quad_quadVerts_length]
          omega
      | conic p0 p1 p2 w =>
          simp only [createGeom.go, actQuadCount, ih,
            foldl_add_quad_quadVerts_length]
          omega
      | cubic p0 p1 p2 p3 =>
          simp only [createGeom.go, actQuadCount, ih,
            foldl_add_quad_quadVerts_length]
          omega
      | close => simp only [createGeom.go, actQuadCount, ih]

lemma createGeom_lineVerts_length {P W : Type} (cv : Converters P W)
    (st : GeomState P) (path : List (Verb P W)) (color : Nat) (indexed : Bool) :
    (createGeom cv st path color indexed).lineVerts.length
      = st.lineVerts.length + actLineCount cv path :=
  createGeom.go_lineVerts_length cv color indexed path st _ true

lemma createGeom_quadVerts_length {P W : Type} (cv : Converters P W)
    (st : GeomState P) (path : List (Verb P W)) (color : Nat) (indexed : Bool) :
    (createGeom cv st path color indexed).quadVerts.length
      = st.quadVerts.length + actQuadCount cv path :=
  createGeom.go_quadVerts_length cv color indexed path st _ true

/-! ## Closed forms for the worst-case counts -/

/-- The line count `ComputeWorstCasePointCount` accumulates per verb:
the conic case falls through into the quad case and contributes
`n + 1`. -/
def estLineCount {P W : Type} (cv : Converters P W) : List (Verb P W) → Int
  | [] => 0
  | .move _ :: rest => 1 + estLineCount cv rest
  | .line _ _ :: rest => 1 + estLineCount cv rest
  | .quad _ _ _ :: rest => 1 + estLineCount cv rest
  | .conic p0 p1 p2 w :: rest =>
      ((cv.conicToQuads p0 p1 p2 w).length + 1) + estLineCount cv rest
  | .cubic p0 p1 p2 p3 :: rest =>
      (cv.cubicToQuads p0 p1 p2 p3).length + estLineCount cv rest
  | .close :: rest => estLineCount cv rest

/-- The quad count `ComputeWorstCasePointCount` accumulates per verb:
the conic case falls through into the quad case and contributes
`3n + 3`. -/
def estQuadCount {P W : Type} (cv : Converters P W) : List (Verb P W) → Int
  | [] => 0
  | .move _ :: rest => estQuadCount cv rest
  | .line _ _ :: rest => estQuadCount cv rest
  | .quad _ _ _ :: rest => 3 + estQuadCount cv rest
  | .conic p0 p1 p2 w :: rest =>
      (3 * (cv.conicToQuads p0 p1 p2 w).length + 3) + estQuadCount cv rest
  | .cubic p0 p1 p2 p3 :: rest =>
      3 * (cv.cubicToQuads p0 p1 p2 p3).length + estQuadCount cv rest
  | .close :: rest => estQuadCount cv rest

lemma ComputeWorstCasePointCount.go_counts {P W : Type} (cv : Converters P W) :
    ∀ (verbs : List (Verb P W)) (subpaths : Int) (first : Bool) (l q : Int),
    (ComputeWorstCasePointCount.go cv verbs subpaths first l q).2.1
        = l + estLineCount cv verbs ∧
    (ComputeWorstCasePointCount.go cv verbs subpaths first l q).2.2
        = q + estQuadCount cv verbs := by
  intro verbs
  induction verbs with
  | nil => intro s f l q; simp [ComputeWorstCasePointCount.go, estLineCount, estQuadCount]
  | cons v rest ih =>
      intro s f l q
      cases v with
      | move p0 =>
          simp only [ComputeWorstCasePointCount.go, estLineCount, estQuadCount]
          rcases ih (if f then s else s + 1) false (l + 1) q with ⟨h1, h2⟩
          refine ⟨?_, ?_⟩
          · rw [h1]; ring
          · rw [h2]
      | line p0 p1 =>
          simp only [ComputeWorstCasePointCount.go, estLineCount, estQuadCount]
          rcases ih s false (l + 1) q with ⟨h1, h2⟩
          refine ⟨?_, ?_⟩
          · rw [h1]; ring
          · rw [h2]
      | quad p0 p1 p2 =>
          simp only [ComputeWorstCasePointCount.go, estLineCount, estQuadCount]
          rcases ih s false (l + 1) (q + 3) with ⟨h1, h2⟩
          refine ⟨?_, ?_⟩
          · rw [h1]; ring
          · rw [h2]; ring
      | conic p0 p1 p2 w =>
          simp only [ComputeWorstCasePointCount.go, estLineCount, estQuadCount]
          rcases ih s false (l + ((cv.conicToQuads p0 p1 p2 w).length : Int) + 1)
            (q + 3 * ((cv.conicToQuads p0 p1 p2 w).length : Int) + 3) with ⟨h1, h2⟩
          refine ⟨?_, ?_⟩
          · rw [h1]; ring
          · rw [h2]; ring
      | cubic p0 p1 p2 p3 =>
          simp only [ComputeWorstCasePointCount.go, estLineCount, estQuadCount]
          rcases ih s false (l + 3 * ((cv.cubicToQuads p0 p1 p2 p3).length : Int) / 3)
            (q + 3 * ((cv.cubicToQuads p0 p1 p2 p3).length : Int)) with ⟨h1, h2⟩
          refine ⟨?_, ?_⟩
          · rw [h1, Int.mul_ediv_cancel_left _ (by norm_num)]; ring
          · rw [h2]; ring
      | close =>
          simp only [ComputeWorstCasePointCount.go, estLineCount, estQuadCount]
          exact ih s false l q

lemma ComputeWorstCasePointCount_line {P W : Type} (cv : Converters P W)
    (path : List (Verb P W)) :
    (ComputeWorstCasePointCount cv path).2.1 = estLineCount cv path := by
  have h := ComputeWorstCasePointCount.go_counts cv path 1 true 0 0
  simpa [ComputeWorstCasePointCount] using h.1

lemma ComputeWorstCasePointCount_quad {P W : Type} (cv : Converters P W)
    (path : List (Verb P W)) :
    (ComputeWorstCasePointCount cv path).2.2 = estQuadCount cv path := by
  have h := ComputeWorstCasePointCount.go_counts cv path 1 true 0 0
  simpa [ComputeWorstCasePointCount] using h.2

lemma actLineCount_le_estLineCount {P W : Type} (cv : Converters P W) :
    ∀ (verbs : List (Verb P W)),
    (actLineCount cv verbs : Int) ≤ estLineCount cv verbs := by
  intro verbs
  induction verbs with
  | nil => simp [actLineCount, estLineCount]
  | cons v rest ih =>
      cases v <;> simp only [actLineCount, estLineCount] <;> push_cast <;> omega

lemma actQuadCount_le_estQuadCount {P W : Type} (cv : Converters P W) :
    ∀ (verbs : List (Verb P W)),
    (actQuadCount cv verbs : Int) ≤ estQuadCount cv verbs := by
  intro verbs
  induction verbs with
  | nil => simp [actQuadCount, estQuadCount]
  | cons v rest ih =>
      cases v <;> simp only [actQuadCount, estQuadCount] <;> push_cast <;> omega

lemma estQuadCount_le_three_mul_estLineCount {P W : Type} (cv : Converters P W) :
    ∀ (verbs : List (Verb P W)),
    estQuadCount cv verbs ≤ 3 * estLineCount cv verbs := by
  intro verbs
  induction verbs with
  | nil => simp [estLineCount, estQuadCount]
  | cons v rest ih =>
      cases v <;> simp only [estLineCount, estQuadCount] <;> omega

lemma estLineCount_nonneg {P W : Type} (cv : Converters P W) :
    ∀ (verbs : List (Verb P W)), 0 ≤ estLineCount cv verbs := by
  intro verbs
  induction verbs with
  | nil => simp [estLineCount]
  | cons v rest ih =>
      cases v <;> simp only [estLineCount] <;> positivity

lemma estQuadCount_nonneg {P W : Type} (cv : Converters P W) :
    ∀ (verbs : List (Verb P W)), 0 ≤ estQuadCount cv verbs := by
  intro verbs
  induction verbs with
  | nil => simp [estQuadCount]
  | cons v rest ih =>
      cases v <;> simp only [estQuadCount] <;> positivity

/-! ## Supporting lemmas for the blend compositor -/

lemma can_use_hw_blend_equation_iff (equation : Int) (analysis : GrPipelineAnalysis)
    (caps : GrCaps) :
    can_use_hw_blend_equation equation analysis caps = true ↔
      (caps.advancedBlendEquationSupport = true ∧
       analysis.fUsesPLSDstRead = false ∧
       analysis.coverageIsFourChannelOutput = false ∧
       caps.canUseAdvancedBlendEquation equation = false) := by
  rcases caps with ⟨s, cu, coh⟩
  rcases analysis with ⟨pls, four⟩
  unfold can_use_hw_blend_equation
  cases s <;> cases pls <;> cases four <;> cases h : cu equation <;> simp [h]

lemma hw_blend_equation_ne_neg_one (mode : SkBlendMode)
    (hm : IsSupportedMode mode = true) : hw_blend_equation mode ≠ -1 := by
  revert hm; cases mode <;> decide

/-! ## Claim theorems: blend compositor -/

/-- C7: `GrCustomXfermode::IsSupportedMode` returns true exactly when
the mode lies strictly above the last coefficient-based (Porter-Duff)
mode and at or below the last mode of the enumeration — so it is true
for every mode in the contiguous advanced range and false for every
separable (coefficient) mode. -/
theorem IsSupportedMode_advanced_range (mode : SkBlendMode) :
    IsSupportedMode mode = !mode.isCoeffMode ∧
    (IsSupportedMode mode = true ↔
      kLastCoeffMode < mode.toInt ∧ mode.toInt ≤ kLastMode) := by
  constructor
  · cases mode <;> rfl
  · simp [IsSupportedMode]

/-- C9: two `CustomXP` instances compare equal under `onIsEqual` iff
their blend modes are equal and their hardware-blend-equation choices
are equal; equal instances generate identical shader keys
(`GLCustomXP::GenKey`), which is what makes them interchangeable for
program caching. -/
theorem CustomXP_onIsEqual_iff (a b : CustomXP) (caps : GrShaderCaps) :
    (CustomXP.onIsEqual a b = true ↔
      a.fMode = b.fMode ∧ a.fHWBlendEquation = b.fHWBlendEquation) ∧
    (CustomXP.onIsEqual a b = true →
      GLCustomXP.GenKey a caps = GLCustomXP.GenKey b caps) := by
  have hiff : CustomXP.onIsEqual a b = true ↔
      a.fMode = b.fMode ∧ a.fHWBlendEquation = b.fHWBlendEquation := by
    simp [CustomXP.onIsEqual]
  refine ⟨hiff, fun h => ?_⟩
  obtain ⟨h1, h2⟩ := hiff.mp h
  simp [GLCustomXP.GenKey, CustomXP.hasHWBlendEquation, h1, h2]

/-- Witness for C9 at two concrete equal instances. -/
theorem CustomXP_onIsEqual_iff_witness :
    CustomXP.onIsEqual (CustomXP.mkHW .kOverlay 4) (CustomXP.mkHW .kOverlay 4) = true ∧
    GLCustomXP.GenKey (CustomXP.mkHW .kOverlay 4) ⟨1, false⟩
      = GLCustomXP.GenKey (CustomXP.mkHW .kOverlay 4) ⟨1, false⟩ :=
  ⟨by decide,
   (CustomXP_onIsEqual_iff (CustomXP.mkHW .kOverlay 4) (CustomXP.mkHW .kOverlay 4)
     ⟨1, false⟩).2 (by decide)⟩

/-- C2: for every advanced mode, capability set and pipeline analysis,
`CustomXPFactory::onCreateXferProcessor` yields the native
hardware-equation processor (`hasHWBlendEquation`, no destination
read) iff the backend advertises advanced-blend-equation support, the
analysis uses no PLS destination read, coverage is not four-channel
(LCD), and the backend does not refuse that specific equation;
otherwise it yields the shader fallback, which reads the destination
color. -/
theorem onCreateXferProcessor_hw_blend_iff (mode : SkBlendMode) (caps : GrCaps)
    (analysis : GrPipelineAnalysis) (hm : IsSupportedMode mode = true) :
    (((CustomXPFactory.onCreateXferProcessor mode caps analysis).hasHWBlendEquation = true ∧
      (CustomXPFactory.onCreateXferProcessor mode caps analysis).willReadDstColor = false) ↔
      (caps.advancedBlendEquationSupport = true ∧
       analysis.fUsesPLSDstRead = false ∧
       analysis.coverageIsFourChannelOutput = false ∧
       caps.canUseAdvancedBlendEquation (hw_blend_equation mode) = false)) ∧
    (((CustomXPFactory.onCreateXferProcessor mode caps analysis).hasHWBlendEquation = false ∧
      (CustomXPFactory.onCreateXferProcessor mode caps analysis).willReadDstColor = true) ↔
      ¬(caps.advancedBlendEquationSupport = true ∧
        analysis.fUsesPLSDstRead = false ∧
        analysis.coverageIsFourChannelOutput = false ∧
        caps.canUseAdvancedBlendEquation (hw_blend_equation mode) = false)) := by
  have hne : hw_blend_equation mode ≠ -1 := hw_blend_equation_ne_neg_one mode hm
  have hcu := can_use_hw_blend_equation_iff (hw_blend_equation mode) analysis caps
  cases h : can_use_hw_blend_equation (hw_blend_equation mode) analysis caps with
  | true =>
      have hc := hcu.mp h
      simp [CustomXPFactory.onCreateXferProcessor, h, CustomXP.mkHW,
        CustomXP.hasHWBlendEquation, hne, hc]
  | false =>
      have hc : ¬(caps.advancedBlendEquationSupport = true ∧
          analysis.fUsesPLSDstRead = false ∧
          analysis.coverageIsFourChannelOutput = false ∧
          caps.canUseAdvancedBlendEquation (hw_blend_equation mode) = false) :=
        fun hx => absurd (hcu.mpr hx) (by simp [h])
      simp [CustomXPFactory.onCreateXferProcessor, h, CustomXP.mkDstRead,
        CustomXP.hasHWBlendEquation, hc]

/-- A concrete capability set that advertises advanced blend equations
and refuses none of them. -/
def sampleCaps : GrCaps := ⟨true, fun _ => false, true⟩

/-- A concrete pipeline analysis with no PLS dst read and single
channel coverage. -/
def sampleAnalysis : GrPipelineAnalysis := ⟨false, false⟩

/-- Witness for C2 at a concrete advanced mode, capability set and
analysis: the hardware path is selected and no destination read
occurs. -/
theorem onCreateXferProcessor_hw_blend_iff_witness :
    IsSupportedMode .kOverlay = true ∧
    ((CustomXPFactory.onCreateXferProcessor .kOverlay sampleCaps
        sampleAnalysis).hasHWBlendEquation = true ∧
     (CustomXPFactory.onCreateXferProcessor .kOverlay sampleCaps
        sampleAnalysis).willReadDstColor = false) :=
  ⟨by decide,
   (onCreateXferProcessor_hw_blend_iff .kOverlay sampleCaps sampleAnalysis
     (by decide)).1.mpr ⟨rfl, rfl, rfl, rfl⟩⟩

/-- C3: the coverage-tweak identity of `CustomXP::onGetOptimizations`:
for every mode operator `B`, fractional coverage `f ∈ [0,1]` and
premultiplied colors `0 ≤ Sca ≤ Sa ≤ 1`, `0 ≤ Dca ≤ Da ≤ 1`,
`blend(f·Sca, Dca, f·Sa, Da) = f·blend(Sca, Dca, Sa, Da) + (1−f)·Dca`;
the degenerate cases `Sa = 0`, `Da = 0` and `f = 0` are instances of
this one statement, not separate branches. -/
theorem blend_coverage_identity (B : ℚ → ℚ → ℚ) (f Sca Sa Dca Da : ℚ)
    (hf0 : 0 ≤ f) (hf1 : f ≤ 1) (hSca : 0 ≤ Sca) (hScaSa : Sca ≤ Sa) (hSa : Sa ≤ 1)
    (hDca : 0 ≤ Dca) (hDcaDa : Dca ≤ Da) (hDa : Da ≤ 1) :
    blend B (f * Sca) Dca (f * Sa) Da = f * blend B Sca Dca Sa Da + (1 - f) * Dca := by
  rcases eq_or_ne Sa 0 with hSa0 | hSa0
  · subst hSa0
    simp only [blend, mul_zero, if_pos (Eq.refl (0 : ℚ))]
    simp only [if_true, ite_true]
    ring
  rcases eq_or_ne f 0 with hf | hf
  · subst hf
    simp [blend, hSa0]
  have hfSa : f * Sa ≠ 0 := mul_ne_zero hf hSa0
  rcases eq_or_ne Da 0 with hDa0 | hDa0
  · have hDca0 : Dca = 0 := le_antisymm (hDa0 ▸ hDcaDa) hDca
    subst hDa0; subst hDca0
    simp [blend, hfSa, hSa0]
  · simp only [blend, if_neg hfSa, if_neg hSa0, if_neg hDa0]
    rw [mul_div_mul_left _ _ hf]
    ring

/-- Witness for C3 at a concrete operator and concrete in-range
colors/coverage. -/
theorem blend_coverage_identity_witness :
    ((0:ℚ) ≤ 1/2 ∧ (1/2:ℚ) ≤ 1 ∧ (0:ℚ) ≤ 1/4 ∧ (1/4:ℚ) ≤ 1/2 ∧ (1/2:ℚ) ≤ 1 ∧
     (0:ℚ) ≤ 1/3 ∧ (1/3:ℚ) ≤ 2/3 ∧ (2/3:ℚ) ≤ 1) ∧
    blend (fun x y => x * y) (1/2 * (1/4)) (1/3) (1/2 * (1/2)) (2/3)
      = 1/2 * blend (fun x y => x * y) (1/4) (1/3) (1/2) (2/3) + (1 - 1/2) * (1/3) :=
  ⟨by norm_num,
   blend_coverage_identity (fun x y => x * y) (1/2) (1/4) (1/2) (1/3) (2/3)
     (by norm_num) (by norm_num) (by norm_num) (by norm_num) (by norm_num)
     (by norm_num) (by norm_num) (by norm_num)⟩

/-! ## Claim theorems: worst-case counting and batch creation -/

/-- C1: for every path (any combination of move/line/quad/conic/cubic
verbs, with any flattening results at the shared tolerance), the line-
and quad-vertex counts returned by `ComputeWorstCasePointCount` are
each at least the number of line and quad vertices actually written by
`createGeom` (via `add_quad`); in particular the conic case, which
falls through into the quadratic case's increments, still never
undercounts. -/
theorem ComputeWorstCasePointCount_bounds_createGeom {P W : Type}
    (cv : Converters P W) (path : List (Verb P W)) (color : Nat) (indexed : Bool) :
    ((createGeom cv (GeomState.empty P) path color indexed).lineVerts.length : Int)
        ≤ (ComputeWorstCasePointCount cv path).2.1 ∧
    ((createGeom cv (GeomState.empty P) path color indexed).quadVerts.length : Int)
        ≤ (ComputeWorstCasePointCount cv path).2.2 := by
  rw [ComputeWorstCasePointCount_line, ComputeWorstCasePointCount_quad,
      createGeom_lineVerts_length, createGeom_quadVerts_length]
  constructor
  · simpa [GeomState.empty] using actLineCount_le_estLineCount cv path
  · simpa [GeomState.empty] using actQuadCount_le_estQuadCount cv path

/-- C10: every verb branch of `ComputeWorstCasePointCount` that
increments the quad count also increments the line count, so a zero
line-vertex count forces a zero quad-vertex count — validating the
early return of `onPrepareDraws` (`if (fMaxLineVertices == 0) {
SkASSERT(fMaxQuadVertices == 0); return; }`), which therefore never
discards pending quad geometry. -/
theorem ComputeWorstCasePointCount_zero_lines_zero_quads {P W : Type}
    (cv : Converters P W) (path : List (Verb P W))
    (h : (ComputeWorstCasePointCount cv path).2.1 = 0) :
    (ComputeWorstCasePointCount cv path).2.2 = 0 := by
  rw [ComputeWorstCasePointCount_quad]
  rw [ComputeWorstCasePointCount_line] at h
  have h3 := estQuadCount_le_three_mul_estLineCount cv path
  have h0 := estQuadCount_nonneg cv path
  omega

/-- A converter pair over placeholder points that flattens every conic
and cubic to no segments; used to evaluate concrete paths. -/
def trivialConverters : Converters PUnit PUnit :=
  ⟨fun _ _ _ _ => [], fun _ _ _ _ => []⟩

/-- Witness for C10 at the empty verb stream: both counts are zero. -/
theorem ComputeWorstCasePointCount_zero_lines_zero_quads_witness :
    (ComputeWorstCasePointCount trivialConverters ([] : List (Verb PUnit PUnit))).2.1 = 0 ∧
    (ComputeWorstCasePointCount trivialConverters ([] : List (Verb PUnit PUnit))).2.2 = 0 :=
  ⟨rfl, ComputeWorstCasePointCount_zero_lines_zero_quads trivialConverters [] rfl⟩

/-- C5: `MSAAPathOp::Make` rejects (returns null — a signal, not a
crash) iff the path has more than one subpath (so the batch would be
indexed) and a worst-case count exceeds `kMaxIndexedVertexCnt`
(65535 ÷ 3); a single-subpath path is never rejected. -/
theorem MSAAPathOp_Make_rejects_iff {P W M R Pl : Type} (cv : Converters P W)
    (color : Nat) (path : List (Verb P W)) (viewMatrix : M) (devBounds : R)
    (pipeline : Pl) :
    (MSAAPathOp.Make cv color path viewMatrix devBounds pipeline = none ↔
      ((ComputeWorstCasePointCount cv path).1 > 1 ∧
       ((ComputeWorstCasePointCount cv path).2.1 > kMaxIndexedVertexCnt ∨
        (ComputeWorstCasePointCount cv path).2.2 > kMaxIndexedVertexCnt))) ∧
    ((ComputeWorstCasePointCount cv path).1 ≤ 1 →
      (MSAAPathOp.Make cv color path viewMatrix devBounds pipeline).isSome = true) := by
  constructor
  · simp only [MSAAPathOp.Make]
    split
    · rename_i hcond
      simp only [Bool.and_eq_true, Bool.or_eq_true, decide_eq_true_eq] at hcond
      simpa using hcond
    · rename_i hcond
      simp only [Bool.and_eq_true, Bool.or_eq_true, decide_eq_true_eq] at hcond
      simpa using hcond
  · intro h
    simp only [MSAAPathOp.Make]
    split
    · rename_i hcond
      simp only [Bool.and_eq_true, Bool.or_eq_true, decide_eq_true_eq] at hcond
      omega
    · rfl

/-- Witness for C5 at a concrete single-subpath path (empty verb
stream): never rejected. -/
theorem MSAAPathOp_Make_rejects_iff_witness :
    (ComputeWorstCasePointCount trivialConverters ([] : List (Verb PUnit PUnit))).1 ≤ 1 ∧
    (MSAAPathOp.Make trivialConverters 0 [] PUnit.unit PUnit.unit PUnit.unit).isSome = true :=
  ⟨by decide,
   (MSAAPathOp_Make_rejects_iff trivialConverters 0 [] PUnit.unit PUnit.unit
     PUnit.unit).2 (by decide)⟩

/-! ## Claim theorems: pass planning -/

/-- C4: `internalDrawPath` plans exactly one pass for a
non-inverse-filled, known-convex shape (also when only stencil is
requested); for every even-odd or winding fill (inverse or not) on a
non-single-pass shape it plans two passes when color is written and
one when only stencil is requested; and an unrecognized fill-rule
value hits the fatal `SkDEBUGFAIL` default branch (embedded as
`none`). -/
theorem planPasses_pass_counts (shape : GrShape) (stencilOnly : Bool) :
    (planPasses shape stencilOnly).map (fun plan => plan.passes.length)
      = if single_pass_shape shape then some 1
        else if shape.fillType = kWinding_FillType ∨ shape.fillType = kEvenOdd_FillType ∨
                shape.fillType = kInverseWinding_FillType ∨
                shape.fillType = kInverseEvenOdd_FillType then
          some (if stencilOnly then 1 else 2)
        else none := by
  by_cases h1 : single_pass_shape shape = true
  · simp [planPasses, h1]
  · by_cases h2 : shape.fillType = kInverseEvenOdd_FillType ∨
        shape.fillType = kEvenOdd_FillType
    · rcases h2 with h2 | h2 <;>
        simp only [kWinding_FillType, kEvenOdd_FillType, kInverseWinding_FillType,
          kInverseEvenOdd_FillType] at h2 ⊢ <;>
        cases stencilOnly <;>
        simp [planPasses, h1, h2, kWinding_FillType, kEvenOdd_FillType,
          kInverseWinding_FillType, kInverseEvenOdd_FillType]
    · by_cases h3 : shape.fillType = kInverseWinding_FillType ∨
          shape.fillType = kWinding_FillType
      · rcases h3 with h3 | h3 <;>
          simp only [kWinding_FillType, kEvenOdd_FillType, kInverseWinding_FillType,
            kInverseEvenOdd_FillType] at h3 ⊢ <;>
          cases stencilOnly <;>
          simp [planPasses, h1, h3, kWinding_FillType, kEvenOdd_FillType,
            kInverseWinding_FillType, kInverseEvenOdd_FillType]
      · have h4 : ¬(shape.fillType = kWinding_FillType ∨
            shape.fillType = kEvenOdd_FillType ∨
            shape.fillType = kInverseWinding_FillType ∨
            shape.fillType = kInverseEvenOdd_FillType) := by tauto
        simp [planPasses, h1, h2, h3, h4]

/-- C6: for a non-single-pass winding or even-odd fill whose plan ends
in a color-writing cover pass (`stencilOnly = false`), the last pass
draws the path's own bounding rectangle when the fill is non-inverse;
when the fill is inverse it draws the device bounds — mapped through
the inverse view transform when the view transform is non-perspective
and invertible, else rendered with an identity view and the inverse as
local matrix — and fails when the view transform is not invertible. -/
theorem internalDrawPath_cover_pass {P W M R Pl : Type} (cv : Converters P W)
    (matrixI : M) (mapRect : M → R → R) (vmHasPerspective : Bool) (vmInverse : Option M)
    (paintColor : Nat) (viewMatrix : M) (shape : GrShape) (path : List (Verb P W))
    (devBounds pathBounds : R) (pipeline : Pl) (op : MSAAPathOp P W M R Pl)
    (hsingle : single_pass_shape shape = false)
    (hMake : MSAAPathOp.Make cv paintColor path viewMatrix devBounds pipeline = some op) :
    ((shape.fillType = kWinding_FillType ∨ shape.fillType = kEvenOdd_FillType) →
      ∃ l s, internalDrawPath cv matrixI mapRect vmHasPerspective vmInverse paintColor
          viewMatrix shape path devBounds pathBounds pipeline false = some l ∧
        l.getLast? = some (.rectDraw pathBounds viewMatrix matrixI s)) ∧
    (∀ vmi, vmInverse = some vmi →
      (shape.fillType = kInverseWinding_FillType ∨
       shape.fillType = kInverseEvenOdd_FillType) →
      ∃ l s, internalDrawPath cv matrixI mapRect vmHasPerspective vmInverse paintColor
          viewMatrix shape path devBounds pathBounds pipeline false = some l ∧
        l.getLast? = some (.rectDraw
          (if vmHasPerspective then devBounds else mapRect vmi devBounds)
          (if vmHasPerspective then matrixI else viewMatrix)
          (if vmHasPerspective then vmi else matrixI) s)) ∧
    (vmInverse = none →
      (shape.fillType = kInverseWinding_FillType ∨
       shape.fillType = kInverseEvenOdd_FillType) →
      internalDrawPath cv matrixI mapRect vmHasPerspective vmInverse paintColor
          viewMatrix shape path devBounds pathBounds pipeline false = none) := by
  refine ⟨?_, ?_, ?_⟩
  · rintro (h | h)
    · refine ⟨[.pathDraw op .windStencilSeparateWithWrap true,
               .rectDraw pathBounds viewMatrix matrixI .windColorPass],
              .windColorPass, ?_, by simp⟩
      simp [internalDrawPath, planPasses, hsingle, h, kWinding_FillType,
        kEvenOdd_FillType, kInverseWinding_FillType, kInverseEvenOdd_FillType,
        internalDrawPath.buildPasses, internalDrawPath.buildPass, hMake]
    · refine ⟨[.pathDraw op .eoStencilPass true,
               .rectDraw pathBounds viewMatrix matrixI .eoColorPass],
              .eoColorPass, ?_, by simp⟩
      simp [internalDrawPath, planPasses, hsingle, h, kWinding_FillType,
        kEvenOdd_FillType, kInverseWinding_FillType, kInverseEvenOdd_FillType,
        internalDrawPath.buildPasses, internalDrawPath.buildPass, hMake]
  · rintro vmi hvmi (h | h) <;> cases vmHasPerspective
    · refine ⟨[.pathDraw op .windStencilSeparateWithWrap true,
               .rectDraw (mapRect vmi devBounds) viewMatrix matrixI .invWindColorPass],
              .invWindColorPass, ?_, by simp⟩
      simp [internalDrawPath, planPasses, hsingle, h, hvmi, kWinding_FillType,
        kEvenOdd_FillType, kInverseWinding_FillType, kInverseEvenOdd_FillType,
        internalDrawPath.buildPasses, internalDrawPath.buildPass, hMake]
    · refine ⟨[.pathDraw op .windStencilSeparateWithWrap true,
               .rectDraw devBounds matrixI vmi .invWindColorPass],
              .invWindColorPass, ?_, by simp⟩
      simp [internalDrawPath, planPasses, hsingle, h, hvmi, kWinding_FillType,
        kEvenOdd_FillType, kInverseWinding_FillType, kInverseEvenOdd_FillType,
        internalDrawPath.buildPasses, internalDrawPath.buildPass, hMake]
    · refine ⟨[.pathDraw op .eoStencilPass true,
               .rectDraw (mapRect vmi devBounds) viewMatrix matrixI .invEOColorPass],
              .invEOColorPass, ?_, by simp⟩
      simp [internalDrawPath, planPasses, hsingle, h, hvmi, kWinding_FillType,
        kEvenOdd_FillType, kInverseWinding_FillType, kInverseEvenOdd_FillType,
        internalDrawPath.buildPasses, internalDrawPath.buildPass, hMake]
    · refine ⟨[.pathDraw op .eoStencilPass true,
               .rectDraw devBounds matrixI vmi .invEOColorPass],
              .invEOColorPass, ?_, by simp⟩
      simp [internalDrawPath, planPasses, hsingle, h, hvmi, kWinding_FillType,
        kEvenOdd_FillType, kInverseWinding_FillType, kInverseEvenOdd_FillType,
        internalDrawPath.buildPasses, internalDrawPath.buildPass, hMake]
  · rintro hvmi (h | h) <;> cases vmHasPerspective <;>
      simp [internalDrawPath, planPasses, hsingle, h, hvmi, kWinding_FillType,
        kEvenOdd_FillType, kInverseWinding_FillType, kInverseEvenOdd_FillType,
        internalDrawPath.buildPasses, internalDrawPath.buildPass, hMake]

/-- Witness for C6 at a concrete winding-fill, non-convex shape and a
one-move path: the plan ends with the cover-pass rect draw. -/
theorem internalDrawPath_cover_pass_witness :
    single_pass_shape ⟨false, false, kWinding_FillType⟩ = false ∧
    MSAAPathOp.Make trivialConverters 0 [Verb.move PUnit.unit] PUnit.unit PUnit.unit
        PUnit.unit
      = some ⟨[⟨0, [Verb.move PUnit.unit]⟩], PUnit.unit, PUnit.unit, PUnit.unit, 1, 0,
              false⟩ ∧
    (∃ l s, internalDrawPath trivialConverters PUnit.unit (fun _ r => r) false
        (some PUnit.unit) 0 PUnit.unit ⟨false, false, kWinding_FillType⟩
        [Verb.move PUnit.unit] PUnit.unit PUnit.unit PUnit.unit false = some l ∧
      l.getLast? = some (.rectDraw PUnit.unit PUnit.unit PUnit.unit s)) :=
  ⟨rfl, rfl,
   (internalDrawPath_cover_pass trivialConverters PUnit.unit (fun _ r => r) false
     (some PUnit.unit) 0 PUnit.unit ⟨false, false, kWinding_FillType⟩
     [Verb.move PUnit.unit] PUnit.unit PUnit.unit PUnit.unit
     ⟨[⟨0, [Verb.move PUnit.unit]⟩], PUnit.unit, PUnit.unit, PUnit.unit, 1, 0, false⟩
     rfl rfl).1 (Or.inl rfl)⟩

/-! ## Claim theorems: batch merging -/

lemma onCombineIfPossible_eq_some {P W M R Pl : Type} [DecidableEq M]
    (cc : Pl → R → Pl → R → Bool) (jb : R → R → R)
    (X Y Z : MSAAPathOp P W M R Pl)
    (h : MSAAPathOp.onCombineIfPossible cc jb X Y = some Z) :
    Z.fMaxLineVertices = X.fMaxLineVertices + Y.fMaxLineVertices ∧
    Z.fMaxQuadVertices = X.fMaxQuadVertices + Y.fMaxQuadVertices ∧
    Z.fPaths = X.fPaths ++ Y.fPaths ∧
    Z.bounds = jb X.bounds Y.bounds ∧
    Z.fIsIndexed = true := by
  unfold MSAAPathOp.onCombineIfPossible at h
  split_ifs at h <;>
    first
      | exact Option.noConfusion h
      | (injection h with h; subst h; exact ⟨rfl, rfl, rfl, rfl, rfl⟩)

/-- A trivially permissive `GrPipeline::CanCombine` over placeholder
pipeline/bounds data. -/
def mergeCanCombine : PUnit → PUnit → PUnit → PUnit → Bool := fun _ _ _ _ => true

/-- A placeholder bounds union. -/
def mergeJoinBounds : PUnit → PUnit → PUnit := fun _ _ => PUnit.unit

/-- A path-free batch with the given worst-case line count (quad count
zero), not yet indexed. -/
def lineBatch (n : Int) : MSAAPathOp PUnit PUnit PUnit PUnit PUnit :=
  ⟨[], PUnit.unit, PUnit.unit, PUnit.unit, n, 0, false⟩

/-- C8 counterexample: `lineBatch 10000`, `lineBatch 10000` and
`lineBatch 11000` have all three pairwise merges individually legal
(each pair sums below `kMaxIndexedVertexCnt = 21845`), yet merging all
three is impossible (the third merge exceeds capacity), and the
absorbing batch's final `fMaxLineVertices` after the attempts depends
on the order: 20000 when B is absorbed first versus 21000 when C is
absorbed first. -/
theorem merge_order_dependent_counterexample :
    (MSAAPathOp.onCombineIfPossible mergeCanCombine mergeJoinBounds
        (lineBatch 10000) (lineBatch 10000)).isSome = true ∧
    (MSAAPathOp.onCombineIfPossible mergeCanCombine mergeJoinBounds
        (lineBatch 10000) (lineBatch 11000)).isSome = true ∧
    (MSAAPathOp.onCombineIfPossible mergeCanCombine mergeJoinBounds
        (lineBatch 10000) (lineBatch 11000)).isSome = true ∧
    MSAAPathOp.onCombineIfPossible mergeCanCombine mergeJoinBounds
        (MSAAPathOp.attemptCombine mergeCanCombine mergeJoinBounds
          (lineBatch 10000) (lineBatch 10000)) (lineBatch 11000) = none ∧
    (MSAAPathOp.attemptCombine mergeCanCombine mergeJoinBounds
        (MSAAPathOp.attemptCombine mergeCanCombine mergeJoinBounds
          (lineBatch 10000) (lineBatch 10000)) (lineBatch 11000)).fMaxLineVertices
      = 20000 ∧
    (MSAAPathOp.attemptCombine mergeCanCombine mergeJoinBounds
        (MSAAPathOp.attemptCombine mergeCanCombine mergeJoinBounds
          (lineBatch 10000) (lineBatch 11000)) (lineBatch 10000)).fMaxLineVertices
      = 21000 :=
  ⟨rfl, rfl, rfl, rfl, rfl, rfl⟩

/-- C8 (amended): provided each successive merge in each order
actually succeeds (pairwise legality alone does not guarantee this),
the absorbing batch's final worst-case totals equal the sum of the
three batches' counts and are therefore the same regardless of the
order of the pairwise merges; and every successful merge sums the two
batches' worst-case counts, appends the absorbed path list, unions
bounds, and marks the result indexed. -/
theorem merge_totals_order_independent {P W M R Pl : Type} [DecidableEq M]
    (cc : Pl → R → Pl → R → Bool) (jb : R → R → R)
    (A B C AB ABC AC ACB BC ABC2 : MSAAPathOp P W M R Pl)
    (hAB : MSAAPathOp.onCombineIfPossible cc jb A B = some AB)
    (hABC : MSAAPathOp.onCombineIfPossible cc jb AB C = some ABC)
    (hAC : MSAAPathOp.onCombineIfPossible cc jb A C = some AC)
    (hACB : MSAAPathOp.onCombineIfPossible cc jb AC B = some ACB)
    (hBC : MSAAPathOp.onCombineIfPossible cc jb B C = some BC)
    (hABC2 : MSAAPathOp.onCombineIfPossible cc jb A BC = some ABC2) :
    (ABC.fMaxLineVertices
        = A.fMaxLineVertices + B.fMaxLineVertices + C.fMaxLineVertices ∧
     ABC.fMaxQuadVertices
        = A.fMaxQuadVertices + B.fMaxQuadVertices + C.fMaxQuadVertices ∧
     ABC.fMaxLineVertices = ACB.fMaxLineVertices ∧
     ABC.fMaxQuadVertices = ACB.fMaxQuadVertices ∧
     ABC.fMaxLineVertices = ABC2.fMaxLineVertices ∧
     ABC.fMaxQuadVertices = ABC2.fMaxQuadVertices) ∧
    (∀ X Y Z : MSAAPathOp P W M R Pl,
      MSAAPathOp.onCombineIfPossible cc jb X Y = some Z →
      Z.fMaxLineVertices = X.fMaxLineVertices + Y.fMaxLineVertices ∧
      Z.fMaxQuadVertices = X.fMaxQuadVertices + Y.fMaxQuadVertices ∧
      Z.fPaths = X.fPaths ++ Y.fPaths ∧
      Z.bounds = jb X.bounds Y.bounds ∧
      Z.fIsIndexed = true) := by
  obtain ⟨hab1, hab2, -, -, -⟩ := onCombineIfPossible_eq_some cc jb A B AB hAB
  obtain ⟨habc1, habc2, -, -, -⟩ := onCombineIfPossible_eq_some cc jb AB C ABC hABC
  obtain ⟨hac1, hac2, -, -, -⟩ := onCombineIfPossible_eq_some cc jb A C AC hAC
  obtain ⟨hacb1, hacb2, -, -, -⟩ := onCombineIfPossible_eq_some cc jb AC B ACB hACB
  obtain ⟨hbc1, hbc2, -, -, -⟩ := onCombineIfPossible_eq_some cc jb B C BC hBC
  obtain ⟨habc21, habc22, -, -, -⟩ := onCombineIfPossible_eq_some cc jb A BC ABC2 hABC2
  exact ⟨⟨by omega, by omega, by omega, by omega, by omega, by omega⟩,
         fun X Y Z h => onCombineIfPossible_eq_some cc jb X Y Z h⟩

/-- A path-free batch already marked indexed with equal line/quad
worst-case counts `n`. -/
def idxBatch (n : Int) : MSAAPathOp PUnit PUnit PUnit PUnit PUnit :=
  ⟨[], PUnit.unit, PUnit.unit, PUnit.unit, n, 0, true⟩

/-- Witness for the amended C8 at three concrete batches whose merges
all succeed in every order. -/
theorem merge_totals_order_independent_witness :
    (MSAAPathOp.onCombineIfPossible mergeCanCombine mergeJoinBounds
        (lineBatch 1) (lineBatch 2) = some (idxBatch 3)) ∧
    (MSAAPathOp.onCombineIfPossible mergeCanCombine mergeJoinBounds
        (idxBatch 3) (lineBatch 4) = some (idxBatch 7)) ∧
    (MSAAPathOp.onCombineIfPossible mergeCanCombine mergeJoinBounds
        (lineBatch 1) (lineBatch 4) = some (idxBatch 5)) ∧
    (MSAAPathOp.onCombineIfPossible mergeCanCombine mergeJoinBounds
        (idxBatch 5) (lineBatch 2) = some (idxBatch 7)) ∧
    (MSAAPathOp.onCombineIfPossible mergeCanCombine mergeJoinBounds
        (lineBatch 2) (lineBatch 4) = some (idxBatch 6)) ∧
    (MSAAPathOp.onCombineIfPossible mergeCanCombine mergeJoinBounds
        (lineBatch 1) (idxBatch 6) = some (idxBatch 7)) ∧
    ((idxBatch 7).fMaxLineVertices
        = (lineBatch 1).fMaxLineVertices + (lineBatch 2).fMaxLineVertices +
          (lineBatch 4).fMaxLineVertices ∧
     (idxBatch 7).fMaxQuadVertices
        = (lineBatch 1).fMaxQuadVertices + (lineBatch 2).fMaxQuadVertices +
          (lineBatch 4).fMaxQuadVertices ∧
     (idxBatch 7).fMaxLineVertices = (idxBatch 7).fMaxLineVertices ∧
     (idxBatch 7).fMaxQuadVertices = (idxBatch 7).fMaxQuadVertices ∧
     (idxBatch 7).fMaxLineVertices = (idxBatch 7).fMaxLineVertices ∧
     (idxBatch 7).fMaxQuadVertices = (idxBatch 7).fMaxQuadVertices) :=
  ⟨rfl, rfl, rfl, rfl, rfl, rfl,
   (merge_totals_order_independent mergeCanCombine mergeJoinBounds
     (lineBatch 1) (lineBatch 2) (lineBatch 4) (idxBatch 3) (idxBatch 7)
     (idxBatch 5) (idxBatch 7) (idxBatch 6) (idxBatch 7)
     (by rfl) (by rfl) (by rfl) (by rfl) (by rfl) (by rfl)).1⟩

end Skia
